import Mathlib

/-!
Verification of `EQS_Painel/app.py` (a Dash dashboard over a precomputed
clustering spreadsheet).  The dashboard's computation layer is embedded
shallowly: pandas data frames become lists of typed rows, coordinates are
rationals, and the two figure builders `build_map` / `build_bars_pie`
become pure functions producing record descriptions of the figures.
The module-level globals (`df_eqp`, `leaders`, ...) are passed to the
embedded functions as explicit arguments.
-/

/-- One row of the `Equipamentos_Clusterizados` sheet after the load-time
`dropna` on coordinates (app.py lines 41, 44-48). -/
structure EqpRow where
  serial : String
  modelo : String
  ataLider : String
  latitude : ℚ
  longitude : ℚ
deriving DecidableEq, Repr

/-- One row of the `ATAs_Coordenadas` sheet after the load-time `dropna`
on coordinates (app.py lines 40, 44-48). -/
structure AtaRow where
  ata : String
  latitude : ℚ
  longitude : ℚ
deriving DecidableEq, Repr

/-- One row of the `df_centroids` frame (app.py lines 53-57). -/
structure CentroidRow where
  ataLider : String
  latCentroide : ℚ
  lonCentroide : ℚ
deriving DecidableEq, Repr

/-- One `go.Scattergeo` trace of the map figure; only the fields the
claims are about (coordinates, trace identity, whether it is the star
marker of app.py lines 111-119). -/
structure GeoTrace where
  lons : List ℚ
  lats : List ℚ
  name : String
  isStar : Bool
deriving DecidableEq, Repr

/-- The map figure built by `build_map`: traces plus the geo-axis ranges
set at app.py lines 102-103 / 128-129 and 141-142. -/
structure MapFigure where
  traces : List GeoTrace
  lataxisRange : ℚ × ℚ
  lonaxisRange : ℚ × ℚ
deriving DecidableEq, Repr

/-- The bar+pie figure built by `build_bars_pie`: the bar trace of
app.py lines 176-181 and the pie trace of lines 196-200. -/
structure DistFigure where
  title : String
  barLabels : List String
  barValues : List Nat
  pieLabels : List String
  pieValues : List Nat
deriving DecidableEq, Repr

/-- `df_eqp[df_eqp["ATA_Lider"] == l]` (app.py lines 88, 122, 157). -/
def eqpFilter (df_eqp : List EqpRow) (l : String) : List EqpRow :=
  df_eqp.filter (fun r => r.ataLider = l)

/-- `series.min()` on a pandas numeric column; the `0` default is never
reached because every call site guards against an empty frame. -/
def listMin : List ℚ → ℚ
  | [] => 0
  | x :: xs => if xs.isEmpty then x else min x (listMin xs)

/-- `series.max()`; same conventions as `listMin`. -/
def listMax : List ℚ → ℚ
  | [] => 0
  | x :: xs => if xs.isEmpty then x else max x (listMax xs)

/-- `series.mean()`: arithmetic mean; pandas' groupby-mean only produces
it for nonempty groups. -/
def listMean (xs : List ℚ) : ℚ := xs.sum / xs.length

/-- Fuel-driven worker for `dedupKeepFirst`; the fuel (an upper bound on
the list length) makes the recursion structural. -/
def dedupKeepFirstFuel : Nat → List String → List String
  | _, [] => []
  | 0, _ :: _ => []
  | n + 1, x :: xs => x :: dedupKeepFirstFuel n (xs.filter (fun y => y ≠ x))

/-- The distinct values of a column in first-encounter order, as pandas'
hash-based grouping and `value_counts` produce them. -/
def dedupKeepFirst (l : List String) : List String :=
  dedupKeepFirstFuel l.length l

/-- Stable insertion: `p` goes in front of the first element it is
`le`-related to.  Used to model pandas' stable sorts. -/
def insertBy (le : α → α → Bool) (p : α) : List α → List α
  | [] => [p]
  | q :: qs => if le p q then p :: q :: qs else q :: insertBy le p qs

/-- Stable insertion sort: the model of pandas' `sort_values`. -/
def sortBy (le : α → α → Bool) : List α → List α
  | [] => []
  | x :: xs => insertBy le x (sortBy le xs)

/-- Descending-by-count comparison for `value_counts` entries; equal
counts keep first-encounter order (stable sort). -/
def countLe (a b : String × Nat) : Bool := decide (b.2 ≤ a.2)

/-- `series.value_counts().sort_values(ascending=False)` (app.py line
163): pairs (model, count) for each distinct model, sorted by count
descending, ties in first-encounter order. -/
def value_counts (ms : List String) : List (String × Nat) :=
  sortBy countLe ((dedupKeepFirst ms).map (fun m => (m, ms.count m)))

/-- `series.loc[k] = v` on a pandas Series (app.py line 171): replaces
the value when the label is already in the index, else appends it. -/
def setLoc (s : List (String × Nat)) (k : String) (v : Nat) : List (String × Nat) :=
  if k ∈ s.map Prod.fst then s.map (fun p => if p.1 = k then (k, v) else p)
  else s ++ [(k, v)]

/-- `df_eqp.groupby("ATA_Lider")[["Latitude","Longitude"]].mean()`
(app.py lines 53-57): one row per distinct `ATA_Lider` value of
`df_eqp`, keys sorted ascending (pandas groupby default), each carrying
the mean coordinates of that leader's rows. -/
def df_centroids (df_eqp : List EqpRow) : List CentroidRow :=
  (sortBy (fun a b => decide (a ≤ b)) (dedupKeepFirst (df_eqp.map (·.ataLider)))).map
    (fun l =>
      { ataLider := l,
        latCentroide := listMean ((eqpFilter df_eqp l).map (·.latitude)),
        lonCentroide := listMean ((eqpFilter df_eqp l).map (·.longitude)) })

/-- The Python truthiness test `selected_leader and selected_leader in
leaders` used at app.py lines 105 and 156: `None` and the empty string
are falsy. -/
def truthyLeader (leaders : List String) : Option String → Bool
  | none => false
  | some sl => if sl = "" then false else decide (sl ∈ leaders)

/-- The row subset `build_bars_pie` works on (app.py lines 156-160):
the selected leader's rows when the selection is truthy and a known
leader, the whole frame otherwise. -/
def scopedRows (df_eqp : List EqpRow) (leaders : List String)
    (selected_leader : Option String) : List EqpRow :=
  match selected_leader with
  | some sl => if truthyLeader leaders (some sl) then eqpFilter df_eqp sl else df_eqp
  | none => df_eqp

/-- The `cont` series of app.py line 163 for the scoped subset. -/
def cont (df_eqp : List EqpRow) (leaders : List String)
    (selected_leader : Option String) : List (String × Nat) :=
  value_counts ((scopedRows df_eqp leaders selected_leader).map (·.modelo))

/-- Traces (A) and (B) of `build_map` (app.py lines 76-99): the gray
reference-point layer when `df_atas` is nonempty, then one colored layer
per leader with matching rows (empty groups are skipped). -/
def baseTraces (df_atas : List AtaRow) (df_eqp : List EqpRow)
    (leaders : List String) : List GeoTrace :=
  (if df_atas.isEmpty then [] else
    [{ lons := df_atas.map (·.longitude), lats := df_atas.map (·.latitude),
       name := "ATAs Coordenadas (todas)", isStar := false }])
  ++ leaders.filterMap (fun l =>
      let dfc := eqpFilter df_eqp l
      if dfc.isEmpty then none
      else some { lons := dfc.map (·.longitude), lats := dfc.map (·.latitude),
                  name := "Equipamentos – " ++ l, isStar := false })

/-- `build_map` (app.py lines 65-148).  Mirrors the control flow of
lines 102-129: default South-America ranges, then — when the selection
is truthy, a known leader, and has a centroid row — the star trace and,
for a nonempty equipment subset, the padded bounding-box ranges. -/
def build_map (df_atas : List AtaRow) (df_eqp : List EqpRow)
    (leaders : List String) (selected_leader : Option String) : MapFigure :=
  let base := baseTraces df_atas df_eqp leaders
  match selected_leader with
  | none => { traces := base, lataxisRange := (-34, 6), lonaxisRange := (-75, -34) }
  | some sl =>
    if sl = "" then { traces := base, lataxisRange := (-34, 6), lonaxisRange := (-75, -34) }
    else if sl ∈ leaders then
      match ((df_centroids df_eqp).filter (fun c => c.ataLider = sl)).head? with
      | none => { traces := base, lataxisRange := (-34, 6), lonaxisRange := (-75, -34) }
      | some c =>
        let star : GeoTrace :=
          { lons := [c.lonCentroide], lats := [c.latCentroide],
            name := "ATA Líder (centroide)", isStar := true }
        let dfc := eqpFilter df_eqp sl
        if dfc.isEmpty then
          { traces := base ++ [star], lataxisRange := (-34, 6), lonaxisRange := (-75, -34) }
        else
          let lats := dfc.map (·.latitude)
          let lons := dfc.map (·.longitude)
          let lat_pad := max ((listMax lats - listMin lats) * 0.20) 2
          let lon_pad := max ((listMax lons - listMin lons) * 0.20) 2
          { traces := base ++ [star],
            lataxisRange := (listMin lats - lat_pad, listMax lats + lat_pad),
            lonaxisRange := (listMin lons - lon_pad, listMax lons + lon_pad) }
    else { traces := base, lataxisRange := (-34, 6), lonaxisRange := (-75, -34) }

/-- `build_bars_pie` (app.py lines 151-203): bar trace = top 5 of
`cont`, pie trace = `cont` truncated to 8 entries with the remainder
summed under the `"Outros"` label when more than 8 distinct models
exist. -/
def build_bars_pie (df_eqp : List EqpRow) (leaders : List String)
    (selected_leader : Option String) : DistFigure :=
  let dfc := scopedRows df_eqp leaders selected_leader
  let title :=
    if truthyLeader leaders selected_leader then
      "Cluster " ++ selected_leader.getD "" ++ ": Top 5 Modelos e Mix"
    else "Brasil inteiro: Top 5 Modelos e Mix"
  let contv := value_counts (dfc.map (·.modelo))
  let top5 := contv.take 5
  let parts :=
    if 8 < contv.length then
      setLoc (contv.take 8) "Outros" (((contv.drop 8).map Prod.snd).sum)
    else contv
  { title := title,
    barLabels := top5.map Prod.fst, barValues := top5.map Prod.snd,
    pieLabels := parts.map Prod.fst, pieValues := parts.map Prod.snd }

/-- The spec's per-axis padding: `max(20% of the box extent, 2 degrees)`. -/
def spec_pad (lo hi : ℚ) : ℚ := max ((hi - lo) * 0.20) 2

/-- The spec's padded viewport range for one axis. -/
def spec_range (lo hi : ℚ) : ℚ × ℚ := (lo - spec_pad lo hi, hi + spec_pad lo hi)

/-- A named table of the source spreadsheet, abstracted to the set of
column names it carries: whether the startup sequence of app.py lines
39-57 succeeds depends only on which files, sheets and columns exist. -/
structure Sheet where
  columns : List String
deriving DecidableEq, Repr

/-- The spreadsheet `data/Clusters_EQS_V2.xlsx`, as a list of named
sheets. -/
structure ExcelFile where
  sheets : List (String × Sheet)
deriving DecidableEq, Repr

/-- The ways the module-level load of app.py lines 39-57 can raise. -/
inductive LoadError where
  | fileNotFound : LoadError
  | sheetMissing : String → LoadError
  | columnMissing : String → LoadError
deriving DecidableEq, Repr

def RESUMO_SHEET : String := "Resumo_Clusters_V2"
def ATAS_COORD_SHEET : String := "ATAs_Coordenadas"
def EQUIP_SHEET : String := "Equipamentos_Clusterizados"

/-- First sheet with the given name, if any. -/
def lookup_sheet (f : ExcelFile) (name : String) : Option Sheet :=
  ((f.sheets.filter (fun p => p.1 = name)).head?).map Prod.snd

/-- `pd.read_excel(DATA_PATH, sheet_name=...)` (app.py lines 39-41): a
missing file raises FileNotFoundError, a missing sheet raises. -/
def read_excel (file : Option ExcelFile) (sheet : String) : Except LoadError Sheet :=
  match file with
  | none => Except.error LoadError.fileNotFound
  | some f =>
    match lookup_sheet f sheet with
    | none => Except.error (LoadError.sheetMissing sheet)
    | some s => Except.ok s

/-- A pandas column access / column selection that raises KeyError when
the column is absent. -/
def require_column (s : Sheet) (c : String) : Except LoadError Unit :=
  if c ∈ s.columns then Except.ok () else Except.error (LoadError.columnMissing c)

/-- The module-level startup sequence of app.py lines 39-57.  The
coordinate `dropna` of lines 44-48 is guarded by `if c in df.columns`,
so it never raises; line 50 accesses `df_resumo["ATA_Lider"]`; lines
53-57 select `ATA_Lider`, `Latitude` and `Longitude` on `df_eqp`.  No
column of the ATAs sheet is touched before the dashboard is served. -/
def startup (file : Option ExcelFile) : Except LoadError (Sheet × Sheet × Sheet) :=
  match read_excel file RESUMO_SHEET with
  | Except.error err => Except.error err
  | Except.ok r =>
    match read_excel file ATAS_COORD_SHEET with
    | Except.error err => Except.error err
    | Except.ok a =>
      match read_excel file EQUIP_SHEET with
      | Except.error err => Except.error err
      | Except.ok e =>
        match require_column r "ATA_Lider" with
        | Except.error err => Except.error err
        | Except.ok _ =>
          match require_column e "ATA_Lider" with
          | Except.error err => Except.error err
          | Except.ok _ =>
            match require_column e "Latitude" with
            | Except.error err => Except.error err
            | Except.ok _ =>
              match require_column e "Longitude" with
              | Except.error err => Except.error err
              | Except.ok _ => Except.ok (r, a, e)

/-- Whether a load attempt succeeded (the dashboard gets served). -/
def loadOk {α : Type} : Except LoadError α → Bool
  | Except.ok _ => true
  | Except.error _ => false

/-- Modelled from the spec (section 4.1, amended): the load succeeds
exactly when the file and all three sheets exist, the summary sheet has
the leader column, and the equipment sheet has the leader and both
coordinate columns. -/
def load_success_spec (file : Option ExcelFile) : Bool :=
  match file with
  | none => false
  | some f =>
    match lookup_sheet f RESUMO_SHEET, lookup_sheet f ATAS_COORD_SHEET,
          lookup_sheet f EQUIP_SHEET with
    | some r, some _, some e =>
        decide ("ATA_Lider" ∈ r.columns) && decide ("ATA_Lider" ∈ e.columns)
          && decide ("Latitude" ∈ e.columns) && decide ("Longitude" ∈ e.columns)
    | _, _, _ => false

/-! ### Lemmas about the list-level building blocks -/

theorem dedupKeepFirstFuel_congr :
    ∀ (n m : Nat) (l : List String), l.length ≤ n → l.length ≤ m →
      dedupKeepFirstFuel n l = dedupKeepFirstFuel m l := by
  intro n
  induction n with
  | zero =>
    intro m l h1 _
    have hl : l = [] := List.eq_nil_of_length_eq_zero (Nat.le_zero.mp h1)
    subst hl
    cases m <;> rfl
  | succ n ih =>
    intro m l h1 h2
    cases l with
    | nil => cases m <;> rfl
    | cons x xs =>
      cases m with
      | zero => simp at h2
      | succ m =>
        simp only [dedupKeepFirstFuel]
        congr 1
        exact ih m (xs.filter (fun y => y ≠ x))
          (le_trans (List.length_filter_le _ _) (Nat.le_of_succ_le_succ h1))
          (le_trans (List.length_filter_le _ _) (Nat.le_of_succ_le_succ h2))

theorem dedupKeepFirst_nil : dedupKeepFirst [] = [] := rfl

theorem dedupKeepFirst_cons (x : String) (xs : List String) :
    dedupKeepFirst (x :: xs) = x :: dedupKeepFirst (xs.filter (fun y => y ≠ x)) := by
  rw [dedupKeepFirst, dedupKeepFirst]
  simp only [List.length_cons, dedupKeepFirstFuel]
  congr 1
  exact dedupKeepFirstFuel_congr xs.length (xs.filter (fun y => y ≠ x)).length _
    (List.length_filter_le _ _) (le_refl _)

theorem mem_dedupKeepFirst {a : String} :
    ∀ {l : List String}, a ∈ dedupKeepFirst l ↔ a ∈ l := by
  have key : ∀ (n : Nat) (l : List String), l.length ≤ n →
      (a ∈ dedupKeepFirst l ↔ a ∈ l) := by
    intro n
    induction n with
    | zero =>
      intro l h
      have hl : l = [] := List.eq_nil_of_length_eq_zero (Nat.le_zero.mp h)
      subst hl
      simp [dedupKeepFirst_nil]
    | succ n ih =>
      intro l h
      cases l with
      | nil => simp [dedupKeepFirst_nil]
      | cons x xs =>
        rw [dedupKeepFirst_cons]
        have hf : (xs.filter (fun y => y ≠ x)).length ≤ n :=
          le_trans (List.length_filter_le _ _) (Nat.le_of_succ_le_succ h)
        by_cases hax : a = x
        · subst hax; simp
        · simp only [List.mem_cons, ih _ hf, List.mem_filter]
          simp [hax]
  intro l
  exact key l.length l (le_refl _)

theorem nodup_dedupKeepFirst : ∀ (l : List String), (dedupKeepFirst l).Nodup := by
  have key : ∀ (n : Nat) (l : List String), l.length ≤ n → (dedupKeepFirst l).Nodup := by
    intro n
    induction n with
    | zero =>
      intro l h
      have hl : l = [] := List.eq_nil_of_length_eq_zero (Nat.le_zero.mp h)
      subst hl
      simp [dedupKeepFirst_nil]
    | succ n ih =>
      intro l h
      cases l with
      | nil => simp [dedupKeepFirst_nil]
      | cons x xs =>
        rw [dedupKeepFirst_cons]
        have hf : (xs.filter (fun y => y ≠ x)).length ≤ n :=
          le_trans (List.length_filter_le _ _) (Nat.le_of_succ_le_succ h)
        refine List.nodup_cons.mpr ⟨?_, ih _ hf⟩
        intro hx
        have := mem_dedupKeepFirst.mp hx
        simp [List.mem_filter] at this
  intro l
  exact key l.length l (le_refl _)

theorem sum_count_dedupKeepFirst :
    ∀ (l : List String), ((dedupKeepFirst l).map (fun m => l.count m)).sum = l.length := by
  have key : ∀ (n : Nat) (l : List String), l.length ≤ n →
      ((dedupKeepFirst l).map (fun m => l.count m)).sum = l.length := by
    intro n
    induction n with
    | zero =>
      intro l h
      have hl : l = [] := List.eq_nil_of_length_eq_zero (Nat.le_zero.mp h)
      subst hl
      simp [dedupKeepFirst_nil]
    | succ n ih =>
      intro l h
      cases l with
      | nil => simp [dedupKeepFirst_nil]
      | cons x xs =>
        have hf : (xs.filter (fun y => y ≠ x)).length ≤ n :=
          le_trans (List.length_filter_le _ _) (Nat.le_of_succ_le_succ h)
        rw [dedupKeepFirst_cons, List.map_cons, List.sum_cons]
        have hcongr : (dedupKeepFirst (xs.filter (fun y => y ≠ x))).map
              (fun m => (x :: xs).count m)
            = (dedupKeepFirst (xs.filter (fun y => y ≠ x))).map
                (fun m => (xs.filter (fun y => y ≠ x)).count m) := by
          refine List.map_congr_left (fun m hm => ?_)
          have hmf := (mem_dedupKeepFirst).mp hm
          have hmne : m ≠ x := by
            have := List.mem_filter.mp hmf
            simpa using this.2
          rw [List.count_cons_of_ne hmne]
          exact (List.count_filter (by simpa using hmne)).symm
        rw [hcongr, ih _ hf, List.count_cons_self]
        have hsplit := List.length_eq_countP_add_countP (fun y => y == x) xs
        have hc : List.count x xs = List.countP (fun y => y == x) xs := by
          simp [List.count]
        have hfl : (xs.filter (fun y => y ≠ x)).length
            = List.countP (fun a => decide ¬(a == x) = true) xs := by
          rw [← List.countP_eq_length_filter]
          exact List.countP_congr (by intro b _; simp)
        simp only [List.length_cons]
        omega
  intro l
  exact key l.length l (le_refl _)

theorem perm_insertBy (le : α → α → Bool) (p : α) :
    ∀ (l : List α), (insertBy le p l).Perm (p :: l) := by
  intro l
  induction l with
  | nil => simp [insertBy]
  | cons q qs ih =>
    rw [insertBy]
    by_cases h : le p q
    · simp [h]
    · simp only [h, if_false, Bool.false_eq_true]
      exact ((ih.cons q).trans (List.Perm.swap p q qs))

theorem perm_sortBy (le : α → α → Bool) :
    ∀ (l : List α), (sortBy le l).Perm l := by
  intro l
  induction l with
  | nil => simp [sortBy]
  | cons x xs ih =>
    rw [sortBy]
    exact (perm_insertBy le x (sortBy le xs)).trans (ih.cons x)

theorem pairwise_insertBy_count (p : String × Nat) {l : List (String × Nat)}
    (h : List.Pairwise (fun a b => b.2 ≤ a.2) l) :
    List.Pairwise (fun a b => b.2 ≤ a.2) (insertBy countLe p l) := by
  induction l with
  | nil => simp [insertBy]
  | cons q qs ih =>
    rw [insertBy]
    by_cases hle : countLe p q
    · simp only [hle, if_true]
      have hq : q.2 ≤ p.2 := by simpa [countLe] using hle
      refine List.pairwise_cons.mpr ⟨?_, h⟩
      intro b hb
      rcases List.mem_cons.mp hb with hb | hb
      · subst hb; exact hq
      · exact le_trans ((List.pairwise_cons.mp h).1 b hb) hq
    · simp only [hle, if_false, Bool.false_eq_true]
      have hpq : p.2 ≤ q.2 := by
        have : ¬ q.2 ≤ p.2 := by simpa [countLe] using hle
        omega
      rcases List.pairwise_cons.mp h with ⟨hq, hqs⟩
      refine List.pairwise_cons.mpr ⟨?_, ih hqs⟩
      intro b hb
      have := (perm_insertBy countLe p qs).mem_iff.mp hb
      rcases List.mem_cons.mp this with hb | hb
      · subst hb; exact hpq
      · exact hq b hb

theorem pairwise_sortBy_count :
    ∀ (l : List (String × Nat)), List.Pairwise (fun a b => b.2 ≤ a.2) (sortBy countLe l) := by
  intro l
  induction l with
  | nil => simp [sortBy]
  | cons x xs ih => exact pairwise_insertBy_count x ih

theorem listMin_le_of_mem {a : ℚ} : ∀ {l : List ℚ}, a ∈ l → listMin l ≤ a := by
  intro l
  induction l with
  | nil => intro h; simp at h
  | cons x xs ih =>
    intro h
    cases xs with
    | nil => simp at h; simp [listMin, h]
    | cons y ys =>
      rw [listMin]
      simp only [List.isEmpty_cons, if_false, Bool.false_eq_true]
      rcases List.mem_cons.mp h with h | h
      · subst h; exact min_le_left _ _
      · exact le_trans (min_le_right _ _) (ih h)

theorem le_listMax_of_mem {a : ℚ} : ∀ {l : List ℚ}, a ∈ l → a ≤ listMax l := by
  intro l
  induction l with
  | nil => intro h; simp at h
  | cons x xs ih =>
    intro h
    cases xs with
    | nil => simp at h; simp [listMax, h]
    | cons y ys =>
      rw [listMax]
      simp only [List.isEmpty_cons, if_false, Bool.false_eq_true]
      rcases List.mem_cons.mp h with h | h
      · subst h; exact le_max_left _ _
      · exact le_trans (ih h) (le_max_right _ _)

theorem length_mul_listMin_le_sum : ∀ (l : List ℚ), (l.length : ℚ) * listMin l ≤ l.sum := by
  intro l
  induction l with
  | nil => simp [listMin]
  | cons x xs ih =>
    cases xs with
    | nil => simp [listMin]
    | cons y ys =>
      rw [listMin]
      simp only [List.isEmpty_cons, if_false, Bool.false_eq_true]
      rw [List.sum_cons, List.length_cons]
      push_cast
      have hn : (0 : ℚ) ≤ ((y :: ys).length : ℚ) := by positivity
      nlinarith [mul_le_mul_of_nonneg_left (min_le_right x (listMin (y :: ys))) hn,
        min_le_left x (listMin (y :: ys)), ih]

theorem sum_le_length_mul_listMax : ∀ (l : List ℚ), l.sum ≤ (l.length : ℚ) * listMax l := by
  intro l
  induction l with
  | nil => simp [listMax]
  | cons x xs ih =>
    cases xs with
    | nil => simp [listMax]
    | cons y ys =>
      rw [listMax]
      simp only [List.isEmpty_cons, if_false, Bool.false_eq_true]
      rw [List.sum_cons, List.length_cons]
      push_cast
      have hn : (0 : ℚ) ≤ ((y :: ys).length : ℚ) := by positivity
      nlinarith [mul_le_mul_of_nonneg_left (le_max_right x (listMax (y :: ys))) hn,
        le_max_left x (listMax (y :: ys)), ih]

theorem listMin_le_listMean {l : List ℚ} (h : l ≠ []) : listMin l ≤ listMean l := by
  have hpos : (0 : ℚ) < (l.length : ℚ) :=
    Nat.cast_pos.mpr (List.length_pos.mpr h)
  rw [listMean, le_div_iff₀ hpos, mul_comm]
  exact length_mul_listMin_le_sum l

theorem listMean_le_listMax {l : List ℚ} (h : l ≠ []) : listMean l ≤ listMax l := by
  have hpos : (0 : ℚ) < (l.length : ℚ) :=
    Nat.cast_pos.mpr (List.length_pos.mpr h)
  rw [listMean, div_le_iff₀ hpos, mul_comm]
  exact sum_le_length_mul_listMax l

theorem value_counts_perm (ms : List String) :
    (value_counts ms).Perm ((dedupKeepFirst ms).map (fun m => (m, ms.count m))) :=
  perm_sortBy _ _

theorem mem_value_counts {ms : List String} {p : String × Nat}
    (hp : p ∈ value_counts ms) : p.1 ∈ ms ∧ p.2 = ms.count p.1 := by
  have hmem := (value_counts_perm ms).mem_iff.mp hp
  rcases List.mem_map.mp hmem with ⟨m, hm, he⟩
  cases he
  exact ⟨mem_dedupKeepFirst.mp hm, rfl⟩

theorem map_fst_value_counts_perm (ms : List String) :
    ((value_counts ms).map Prod.fst).Perm (dedupKeepFirst ms) := by
  have h := (value_counts_perm ms).map Prod.fst
  rw [List.map_map] at h
  have he : (Prod.fst ∘ fun m : String => (m, ms.count m)) = id := rfl
  rw [he, List.map_id] at h
  exact h

theorem nodup_fst_value_counts (ms : List String) :
    ((value_counts ms).map Prod.fst).Nodup :=
  (map_fst_value_counts_perm ms).nodup_iff.mpr (nodup_dedupKeepFirst ms)

theorem length_value_counts (ms : List String) :
    (value_counts ms).length = (dedupKeepFirst ms).length := by
  have h := (value_counts_perm ms).length_eq
  simpa using h

theorem sum_snd_value_counts (ms : List String) :
    ((value_counts ms).map Prod.snd).sum = ms.length := by
  have hperm := ((value_counts_perm ms).map Prod.snd).sum_eq
  rw [hperm, List.map_map]
  exact sum_count_dedupKeepFirst ms

theorem pairwise_value_counts (ms : List String) :
    List.Pairwise (fun a b => b.2 ≤ a.2) (value_counts ms) :=
  pairwise_sortBy_count _

theorem not_mem_fst_value_counts {ms : List String} {k : String} (hk : k ∉ ms) :
    k ∉ (value_counts ms).map Prod.fst := by
  intro h
  exact hk (mem_dedupKeepFirst.mp ((map_fst_value_counts_perm ms).mem_iff.mp h))

theorem eqpFilter_eq_nil_iff {df : List EqpRow} {l : String} :
    eqpFilter df l = [] ↔ l ∉ df.map (·.ataLider) := by
  rw [eqpFilter, List.filter_eq_nil_iff]
  simp

theorem nodup_filter_eq_singleton {l : String} :
    ∀ {keys : List String}, keys.Nodup →
      keys.filter (fun k => k = l) = if l ∈ keys then [l] else [] := by
  intro keys h
  induction keys with
  | nil => simp
  | cons x xs ih =>
    rcases List.nodup_cons.mp h with ⟨hx, hxs⟩
    by_cases hxl : x = l
    · subst hxl
      have hnil : xs.filter (fun k => k = x) = [] := by
        rw [List.filter_eq_nil_iff]
        intro a ha
        simp only [decide_eq_true_eq]
        intro he
        exact hx (he ▸ ha)
      simp [List.filter_cons, hnil]
    · rw [List.filter_cons]
      simp only [decide_eq_true_eq, hxl, if_false]
      rw [ih hxs]
      have hlx : (l ∈ x :: xs) ↔ (l ∈ xs) := by
        constructor
        · intro h1
          rcases List.mem_cons.mp h1 with h1 | h1
          · exact absurd h1.symm hxl
          · exact h1
        · exact fun h1 => List.mem_cons_of_mem x h1
      by_cases hl : l ∈ xs
      · rw [if_pos hl, if_pos (hlx.mpr hl)]
      · rw [if_neg hl, if_neg (fun hc => hl (hlx.mp hc))]

theorem sortBy_keys_nodup (df : List EqpRow) :
    (sortBy (fun a b => decide (a ≤ b)) (dedupKeepFirst (df.map (·.ataLider)))).Nodup :=
  (perm_sortBy _ _).nodup_iff.mpr (nodup_dedupKeepFirst _)

theorem mem_sortBy_keys {df : List EqpRow} {l : String} :
    l ∈ sortBy (fun a b => decide (a ≤ b)) (dedupKeepFirst (df.map (·.ataLider)))
      ↔ l ∈ df.map (·.ataLider) :=
  (perm_sortBy _ _).mem_iff.trans mem_dedupKeepFirst

theorem df_centroids_filter_eq (df : List EqpRow) (l : String) :
    (df_centroids df).filter (fun c => c.ataLider = l) =
      if l ∈ df.map (·.ataLider) then
        [{ ataLider := l,
           latCentroide := listMean ((eqpFilter df l).map (·.latitude)),
           lonCentroide := listMean ((eqpFilter df l).map (·.longitude)) }]
      else [] := by
  rw [df_centroids, List.filter_map]
  have hcomp :
      ((fun c : CentroidRow => decide (c.ataLider = l)) ∘
        (fun k : String =>
          ({ ataLider := k,
             latCentroide := listMean ((eqpFilter df k).map (·.latitude)),
             lonCentroide := listMean ((eqpFilter df k).map (·.longitude)) } : CentroidRow)))
      = fun k : String => decide (k = l) := by
    funext k
    simp
  rw [hcomp, nodup_filter_eq_singleton (sortBy_keys_nodup df)]
  by_cases hmem : l ∈ df.map (·.ataLider)
  · rw [if_pos (mem_sortBy_keys.mpr hmem), if_pos hmem]
    simp
  · rw [if_neg (fun h => hmem (mem_sortBy_keys.mp h)), if_neg hmem]
    simp

theorem baseTraces_no_star (df_atas : List AtaRow) (df_eqp : List EqpRow)
    (leaders : List String) :
    ∀ t ∈ baseTraces df_atas df_eqp leaders, t.isStar = false := by
  intro t ht
  rw [baseTraces, List.mem_append] at ht
  rcases ht with ht | ht
  · by_cases h : df_atas.isEmpty
    · simp [h] at ht
    · simp only [h, if_false, Bool.false_eq_true, List.mem_singleton] at ht
      subst ht; rfl
  · rcases List.mem_filterMap.mp ht with ⟨l, _, hl⟩
    by_cases h : (eqpFilter df_eqp l).isEmpty
    · simp [h] at hl
    · simp only [h, if_false, Bool.false_eq_true, Option.some.injEq] at hl
      subst hl; rfl

/-! ### Concrete fixtures -/

/-- The end-to-end scenario of spec section 8: leaders A and B, A with
two points, B with one. -/
def eqpAB : List EqpRow :=
  [{ serial := "S1", modelo := "M1", ataLider := "A", latitude := -10, longitude := -50 },
   { serial := "S2", modelo := "M2", ataLider := "A", latitude := -12, longitude := -52 },
   { serial := "S3", modelo := "M1", ataLider := "B", latitude := -20, longitude := -60 }]

/-- A dataset whose only leader identifier is the empty string. -/
def eqpBlank : List EqpRow :=
  [{ serial := "S0", modelo := "M0", ataLider := "", latitude := 0, longitude := 0 }]

/-! ### Claim theorems -/

/-- C3 (confirmed): the startup centroid mapping has, for every leader
value with at least one equipment row, exactly one entry carrying the
arithmetic means of that leader's latitudes and longitudes, and no entry
for a leader value with zero equipment rows. -/
theorem df_centroids_exact (df_eqp : List EqpRow) (l : String) :
    (l ∈ df_eqp.map (·.ataLider) →
      (df_centroids df_eqp).filter (fun c => c.ataLider = l) =
        [{ ataLider := l,
           latCentroide := listMean ((eqpFilter df_eqp l).map (·.latitude)),
           lonCentroide := listMean ((eqpFilter df_eqp l).map (·.longitude)) }]) ∧
    (l ∉ df_eqp.map (·.ataLider) →
      (df_centroids df_eqp).filter (fun c => c.ataLider = l) = []) := by
  constructor
  · intro h
    rw [df_centroids_filter_eq, if_pos h]
  · intro h
    rw [df_centroids_filter_eq, if_neg h]

/-- Witness for C3 on the concrete fixture: leader A's centroid is
(-11, -51), obtained from `df_centroids_exact`. -/
theorem df_centroids_exact_w :
    ("A" ∈ eqpAB.map (·.ataLider)) ∧
    (df_centroids eqpAB).filter (fun c => c.ataLider = "A") =
      [{ ataLider := "A", latCentroide := -11, lonCentroide := -51 }] := by
  refine ⟨by decide, ?_⟩
  have h := (df_centroids_exact eqpAB "A").1 (by decide)
  rw [h]
  simp only [List.cons.injEq, and_true, CentroidRow.mk.injEq, true_and]
  constructor
  · simp [eqpFilter, eqpAB, listMean]
    norm_num
  · simp [eqpFilter, eqpAB, listMean]
    norm_num

/-- C7 (confirmed): every centroid row lies inside the closed bounding
box of its leader's equipment points, on both axes. -/
theorem centroid_in_bbox (df_eqp : List EqpRow) (c : CentroidRow)
    (hc : c ∈ df_centroids df_eqp) :
    listMin ((eqpFilter df_eqp c.ataLider).map (·.latitude)) ≤ c.latCentroide ∧
    c.latCentroide ≤ listMax ((eqpFilter df_eqp c.ataLider).map (·.latitude)) ∧
    listMin ((eqpFilter df_eqp c.ataLider).map (·.longitude)) ≤ c.lonCentroide ∧
    c.lonCentroide ≤ listMax ((eqpFilter df_eqp c.ataLider).map (·.longitude)) := by
  rw [df_centroids] at hc
  rcases List.mem_map.mp hc with ⟨l, hl, he⟩
  have hlmem : l ∈ df_eqp.map (·.ataLider) := mem_sortBy_keys.mp hl
  have hne : eqpFilter df_eqp l ≠ [] := fun h => (eqpFilter_eq_nil_iff.mp h) hlmem
  subst he
  have hlat : (eqpFilter df_eqp l).map (·.latitude) ≠ [] := by
    simpa using hne
  have hlon : (eqpFilter df_eqp l).map (·.longitude) ≠ [] := by
    simpa using hne
  exact ⟨listMin_le_listMean hlat, listMean_le_listMax hlat,
    listMin_le_listMean hlon, listMean_le_listMax hlon⟩

/-- Leader A's centroid row in the fixture, with the means evaluated. -/
def centA : CentroidRow := { ataLider := "A", latCentroide := -11, lonCentroide := -51 }

/-- Witness for C7: leader A's centroid latitude -11 is at least the
minimum latitude of A's points in the fixture. -/
theorem centroid_in_bbox_w :
    centA ∈ df_centroids eqpAB ∧
    listMin ((eqpFilter eqpAB "A").map (·.latitude)) ≤ centA.latCentroide := by
  have hfe := df_centroids_filter_eq eqpAB "A"
  rw [if_pos (by decide)] at hfe
  have hval : ({ ataLider := "A",
                 latCentroide := listMean ((eqpFilter eqpAB "A").map (·.latitude)),
                 lonCentroide := listMean ((eqpFilter eqpAB "A").map (·.longitude)) }
      : CentroidRow) = centA := by
    simp only [centA, CentroidRow.mk.injEq, true_and]
    constructor
    · simp [eqpFilter, eqpAB, listMean]
      norm_num
    · simp [eqpFilter, eqpAB, listMean]
      norm_num
  rw [hval] at hfe
  have hmem : centA ∈ df_centroids eqpAB := by
    have h1 : centA ∈ (df_centroids eqpAB).filter (fun c => c.ataLider = "A") := by
      rw [hfe]
      exact List.mem_singleton_self _
    exact List.mem_of_mem_filter h1
  refine ⟨hmem, ?_⟩
  have h := (centroid_in_bbox eqpAB centA hmem).1
  simpa [centA] using h

/-- C9 (confirmed): `build_bars_pie` is a pure function of the loaded
data and the selection — two invocations over identical data yield
identical bar and pie series; the ranking's tie-break (stable descending
sort, equal counts in first-encounter order) is fixed in `value_counts`. -/
theorem distribution_deterministic (df1 df2 : List EqpRow) (ld1 ld2 : List String)
    (s1 s2 : Option String) (hd : df1 = df2) (hl : ld1 = ld2) (hs : s1 = s2) :
    build_bars_pie df1 ld1 s1 = build_bars_pie df2 ld2 s2 := by
  subst hd; subst hl; subst hs; rfl

/-- Witness for C9 at a concrete input. -/
theorem distribution_deterministic_w :
    build_bars_pie eqpAB ["A", "B"] (some "A")
      = build_bars_pie eqpAB ["A", "B"] (some "A") :=
  distribution_deterministic eqpAB eqpAB ["A", "B"] ["A", "B"]
    (some "A") (some "A") rfl rfl rfl

/-- C4 (confirmed): a non-empty selection that is not a known leader
behaves exactly like no selection for both renderers — same figures, the
default whole-country viewport, no star trace, and the full data set for
the distribution; both embedded renderers are total functions, so no
error can be raised. -/
theorem unknown_leader_fallback (df_atas : List AtaRow) (df_eqp : List EqpRow)
    (leaders : List String) (l : String) (hne : l ≠ "") (habs : l ∉ leaders) :
    build_map df_atas df_eqp leaders (some l) = build_map df_atas df_eqp leaders none ∧
    build_bars_pie df_eqp leaders (some l) = build_bars_pie df_eqp leaders none ∧
    (build_map df_atas df_eqp leaders (some l)).lataxisRange = (-34, 6) ∧
    (build_map df_atas df_eqp leaders (some l)).lonaxisRange = (-75, -34) ∧
    (∀ t ∈ (build_map df_atas df_eqp leaders (some l)).traces, t.isStar = false) ∧
    scopedRows df_eqp leaders (some l) = df_eqp := by
  have htr : truthyLeader leaders (some l) = false := by
    simp [truthyLeader, hne, habs]
  have hmap : build_map df_atas df_eqp leaders (some l) =
      { traces := baseTraces df_atas df_eqp leaders,
        lataxisRange := (-34, 6), lonaxisRange := (-75, -34) } := by
    simp only [build_map]
    rw [if_neg hne, if_neg habs]
  have hnone : build_map df_atas df_eqp leaders none =
      { traces := baseTraces df_atas df_eqp leaders,
        lataxisRange := (-34, 6), lonaxisRange := (-75, -34) } := by
    simp only [build_map]
  have hscope : scopedRows df_eqp leaders (some l) = df_eqp := by
    simp [scopedRows, htr]
  refine ⟨hmap.trans hnone.symm, ?_, by rw [hmap], by rw [hmap], ?_, hscope⟩
  · simp only [build_bars_pie, hscope, htr]
    rfl
  · intro t ht
    rw [hmap] at ht
    exact baseTraces_no_star df_atas df_eqp leaders t ht

/-- Witness for C4: selecting the unknown leader "X" over the fixture. -/
theorem unknown_leader_fallback_w :
    ("X" : String) ≠ "" ∧ "X" ∉ (["A", "B"] : List String) ∧
    build_map [] eqpAB ["A", "B"] (some "X") = build_map [] eqpAB ["A", "B"] none ∧
    scopedRows eqpAB ["A", "B"] (some "X") = eqpAB := by
  have h := unknown_leader_fallback [] eqpAB ["A", "B"] "X" (by decide) (by decide)
  exact ⟨by decide, by decide, h.1, h.2.2.2.2.2⟩

/-- C6 (confirmed): a known leader with zero equipment rows has no
centroid entry, and selecting it draws no star and keeps the default
whole-country viewport. -/
theorem zero_rows_no_star (df_atas : List AtaRow) (df_eqp : List EqpRow)
    (leaders : List String) (l : String) (hmem : l ∈ leaders)
    (hzero : eqpFilter df_eqp l = []) :
    (df_centroids df_eqp).filter (fun c => c.ataLider = l) = [] ∧
    (build_map df_atas df_eqp leaders (some l)).lataxisRange = (-34, 6) ∧
    (build_map df_atas df_eqp leaders (some l)).lonaxisRange = (-75, -34) ∧
    ∀ t ∈ (build_map df_atas df_eqp leaders (some l)).traces, t.isStar = false := by
  have hnotin : l ∉ df_eqp.map (·.ataLider) := eqpFilter_eq_nil_iff.mp hzero
  have hcent : (df_centroids df_eqp).filter (fun c => c.ataLider = l) = [] := by
    rw [df_centroids_filter_eq, if_neg hnotin]
  have hmap : build_map df_atas df_eqp leaders (some l) =
      { traces := baseTraces df_atas df_eqp leaders,
        lataxisRange := (-34, 6), lonaxisRange := (-75, -34) } := by
    by_cases hne : l = ""
    · simp only [build_map]
      rw [if_pos hne]
    · simp only [build_map, hcent]
      rw [if_neg hne, if_pos hmem]
      simp
  refine ⟨hcent, by rw [hmap], by rw [hmap], ?_⟩
  intro t ht
  rw [hmap] at ht
  exact baseTraces_no_star df_atas df_eqp leaders t ht

/-- Witness for C6: leader "C" is known but has no equipment rows. -/
theorem zero_rows_no_star_w :
    ("C" : String) ∈ (["A", "B", "C"] : List String) ∧ eqpFilter eqpAB "C" = [] ∧
    (df_centroids eqpAB).filter (fun c => c.ataLider = "C") = [] ∧
    (build_map [] eqpAB ["A", "B", "C"] (some "C")).lataxisRange = (-34, 6) := by
  have h := zero_rows_no_star [] eqpAB ["A", "B", "C"] "C" (by decide) (by decide)
  exact ⟨by decide, by decide, h.1, h.2.1⟩

/-- C1 (amended: the leader identifier must be non-empty, since the
Python truthiness test at app.py line 105 treats the empty string like
no selection): for every non-empty leader in `leaders` with at least one
equipment row, `build_map` sets both viewport ranges to the leader's
bounding box padded by `max(0.20 * extent, 2)` per axis; in particular a
latitude span of 1 degree yields a rendered latitude range of at least 4
degrees centered on the bounding box. -/
theorem build_map_viewport_padded (df_atas : List AtaRow) (df_eqp : List EqpRow)
    (leaders : List String) (l : String) (hne : l ≠ "") (hmem : l ∈ leaders)
    (hrows : eqpFilter df_eqp l ≠ []) :
    (build_map df_atas df_eqp leaders (some l)).lataxisRange =
      spec_range (listMin ((eqpFilter df_eqp l).map (·.latitude)))
        (listMax ((eqpFilter df_eqp l).map (·.latitude))) ∧
    (build_map df_atas df_eqp leaders (some l)).lonaxisRange =
      spec_range (listMin ((eqpFilter df_eqp l).map (·.longitude)))
        (listMax ((eqpFilter df_eqp l).map (·.longitude))) ∧
    (listMax ((eqpFilter df_eqp l).map (·.latitude))
        - listMin ((eqpFilter df_eqp l).map (·.latitude)) = 1 →
      (build_map df_atas df_eqp leaders (some l)).lataxisRange.2
          - (build_map df_atas df_eqp leaders (some l)).lataxisRange.1 ≥ 4 ∧
      (build_map df_atas df_eqp leaders (some l)).lataxisRange.1
          + (build_map df_atas df_eqp leaders (some l)).lataxisRange.2
        = listMin ((eqpFilter df_eqp l).map (·.latitude))
          + listMax ((eqpFilter df_eqp l).map (·.latitude))) := by
  have hlmem : l ∈ df_eqp.map (·.ataLider) := by
    by_contra h
    exact hrows (eqpFilter_eq_nil_iff.mpr h)
  have hcent := df_centroids_filter_eq df_eqp l
  rw [if_pos hlmem] at hcent
  have hempty : (eqpFilter df_eqp l).isEmpty = false := by
    simpa [List.isEmpty_iff] using hrows
  have hlat : (build_map df_atas df_eqp leaders (some l)).lataxisRange =
      spec_range (listMin ((eqpFilter df_eqp l).map (·.latitude)))
        (listMax ((eqpFilter df_eqp l).map (·.latitude))) := by
    simp only [build_map, hcent, List.head?_cons]
    rw [if_neg hne, if_pos hmem]
    simp only [hempty, Bool.false_eq_true, if_false]
    rw [spec_range, spec_pad]
  have hlon : (build_map df_atas df_eqp leaders (some l)).lonaxisRange =
      spec_range (listMin ((eqpFilter df_eqp l).map (·.longitude)))
        (listMax ((eqpFilter df_eqp l).map (·.longitude))) := by
    simp only [build_map, hcent, List.head?_cons]
    rw [if_neg hne, if_pos hmem]
    simp only [hempty, Bool.false_eq_true, if_false]
    rw [spec_range, spec_pad]
  refine ⟨hlat, hlon, ?_⟩
  intro hspan
  have hpadv : spec_pad (listMin ((eqpFilter df_eqp l).map (·.latitude)))
      (listMax ((eqpFilter df_eqp l).map (·.latitude))) = 2 := by
    rw [spec_pad, hspan, max_eq_right (by norm_num : (1 : ℚ) * 0.20 ≤ 2)]
  rw [hlat, spec_range, hpadv]
  constructor
  · simp only
    linarith [hspan]
  · simp only
    ring

/-- C1 counterexample: with the empty string as a genuine leader value
(present in `leaders`, with one equipment row at the origin) the claim
requires the padded range `(-2, 2)`, but `build_map` keeps the default
range `(-34, 6)` because the selection is falsy in Python. -/
theorem build_map_empty_leader_cex :
    ("" : String) ∈ ([""] : List String) ∧ eqpFilter eqpBlank "" ≠ [] ∧
    (build_map [] eqpBlank [""] (some "")).lataxisRange = (-34, 6) ∧
    spec_range (listMin ((eqpFilter eqpBlank "").map (·.latitude)))
        (listMax ((eqpFilter eqpBlank "").map (·.latitude))) = (-2, 2) ∧
    ((-34 : ℚ), (6 : ℚ)) ≠ ((-2 : ℚ), (2 : ℚ)) := by
  refine ⟨by decide, by decide, by simp [build_map], ?_, by norm_num⟩
  have h1 : (eqpFilter eqpBlank "").map (·.latitude) = [0] := by
    simp [eqpFilter, eqpBlank]
  rw [h1]
  simp only [spec_range, spec_pad, listMin, listMax]
  norm_num

/-- Witness for C1 on the fixture: selecting leader A (latitudes -12 to
-10, longitudes -52 to -50) gives the ranges of spec section 8. -/
theorem build_map_viewport_padded_w :
    ("A" : String) ≠ "" ∧ "A" ∈ (["A", "B"] : List String) ∧ eqpFilter eqpAB "A" ≠ [] ∧
    (build_map [] eqpAB ["A", "B"] (some "A")).lataxisRange = (-14, -8) ∧
    (build_map [] eqpAB ["A", "B"] (some "A")).lonaxisRange = (-54, -48) := by
  have h := build_map_viewport_padded [] eqpAB ["A", "B"] "A"
    (by decide) (by decide) (by decide)
  refine ⟨by decide, by decide, by decide, ?_, ?_⟩
  · rw [h.1]
    have h1 : (eqpFilter eqpAB "A").map (·.latitude) = [-10, -12] := by
      simp [eqpFilter, eqpAB]
    rw [h1]
    simp only [spec_range, spec_pad, listMin, listMax]
    norm_num
  · rw [h.2.1]
    have h1 : (eqpFilter eqpAB "A").map (·.longitude) = [-50, -52] := by
      simp [eqpFilter, eqpAB]
    rw [h1]
    simp only [spec_range, spec_pad, listMin, listMax]
    norm_num

/-- A file whose ATAs-coordinates sheet lacks the Latitude column while
everything else required is present. -/
def atasNoLat : Sheet := { columns := ["ATA", "Longitude"] }

/-- The full spreadsheet fixture around `atasNoLat`. -/
def fileNoAtasLat : ExcelFile :=
  { sheets :=
      [(RESUMO_SHEET, { columns := ["ATA_Lider", "Qtd"] }),
       (ATAS_COORD_SHEET, atasNoLat),
       (EQUIP_SHEET, { columns := ["Serial", "Modelo", "ATA_Lider", "Latitude", "Longitude"] })] }

/-- C5 counterexample: the claim requires startup to fail whenever a
required column (here Latitude of the reference-coordinates table) is
missing, but the load of app.py lines 39-57 succeeds on this file: the
`dropna` at lines 44-48 is guarded by `if c in df.columns` and no other
startup statement touches the ATAs sheet's columns. -/
theorem startup_missing_atas_lat_cex :
    "Latitude" ∉ atasNoLat.columns ∧ loadOk (startup (some fileNoAtasLat)) = true := by
  constructor
  · decide
  · rfl

/-- C5 (amended: a missing Latitude/Longitude column of the
reference-coordinates sheet is tolerated at startup; all other listed
failures are fatal): startup succeeds exactly when the file and the
three named sheets exist, the summary sheet has the leader column, and
the equipment sheet has the leader column and both coordinate columns.
On every failing input `startup` returns an error and no data context
(so no dashboard) is produced. -/
theorem startup_ok_iff (file : Option ExcelFile) :
    loadOk (startup file) = load_success_spec file := by
  cases file with
  | none => rfl
  | some f =>
    cases h1 : lookup_sheet f RESUMO_SHEET with
    | none => simp [startup, read_excel, load_success_spec, h1, loadOk]
    | some r =>
      cases h2 : lookup_sheet f ATAS_COORD_SHEET with
      | none => simp [startup, read_excel, load_success_spec, h1, h2, loadOk]
      | some a =>
        cases h3 : lookup_sheet f EQUIP_SHEET with
        | none => simp [startup, read_excel, load_success_spec, h1, h2, h3, loadOk]
        | some e =>
          by_cases c1 : "ATA_Lider" ∈ r.columns
          · by_cases c2 : "ATA_Lider" ∈ e.columns
            · by_cases c3 : "Latitude" ∈ e.columns
              · by_cases c4 : "Longitude" ∈ e.columns
                · simp [startup, read_excel, load_success_spec, h1, h2, h3,
                    require_column, c1, c2, c3, c4, loadOk]
                · simp [startup, read_excel, load_success_spec, h1, h2, h3,
                    require_column, c1, c2, c3, c4, loadOk]
              · simp [startup, read_excel, load_success_spec, h1, h2, h3,
                  require_column, c1, c2, c3, loadOk]
            · simp [startup, read_excel, load_success_spec, h1, h2, h3,
                require_column, c1, c2, loadOk]
          · simp [startup, read_excel, load_success_spec, h1, h2, h3,
              require_column, c1, loadOk]

/-- Witness for C5 at concrete inputs: a missing file fails, and the
complete fixture file succeeds, both via `startup_ok_iff`. -/
theorem startup_ok_iff_w :
    loadOk (startup (none : Option ExcelFile)) = load_success_spec none ∧
    loadOk (startup (some fileNoAtasLat)) = load_success_spec (some fileNoAtasLat) :=
  ⟨startup_ok_iff none, startup_ok_iff (some fileNoAtasLat)⟩

/-- `setLoc` appends when the label is not yet in the index. -/
theorem setLoc_append {s : List (String × Nat)} {k : String} {v : Nat}
    (hk : k ∉ s.map Prod.fst) : setLoc s k v = s ++ [(k, v)] := by
  rw [setLoc, if_neg hk]

theorem length_dedupKeepFirst_eq (l : List String) :
    (dedupKeepFirst l).length = l.dedup.length := by
  have hperm : (dedupKeepFirst l).Perm l.dedup := by
    rw [List.perm_ext_iff_of_nodup (nodup_dedupKeepFirst l) l.nodup_dedup]
    intro a
    rw [mem_dedupKeepFirst, List.mem_dedup]
  exact hperm.length_eq

theorem not_mem_take_fst_cont {df_eqp : List EqpRow} {leaders : List String}
    {sel : Option String}
    (hout : "Outros" ∉ (scopedRows df_eqp leaders sel).map (·.modelo)) (n : Nat) :
    "Outros" ∉ ((cont df_eqp leaders sel).take n).map Prod.fst := by
  intro h
  rw [List.map_take] at h
  have h1 : "Outros" ∈ (cont df_eqp leaders sel).map Prod.fst :=
    (List.take_sublist n _).subset h
  exact not_mem_fst_value_counts hout h1

/-- Nine distinct models, none named "Outros". -/
def eqpNine : List EqpRow :=
  [{ serial := "V1", modelo := "q1", ataLider := "L", latitude := 0, longitude := 0 },
   { serial := "V2", modelo := "q2", ataLider := "L", latitude := 0, longitude := 0 },
   { serial := "V3", modelo := "q3", ataLider := "L", latitude := 0, longitude := 0 },
   { serial := "V4", modelo := "q4", ataLider := "L", latitude := 0, longitude := 0 },
   { serial := "V5", modelo := "q5", ataLider := "L", latitude := 0, longitude := 0 },
   { serial := "V6", modelo := "q6", ataLider := "L", latitude := 0, longitude := 0 },
   { serial := "V7", modelo := "q7", ataLider := "L", latitude := 0, longitude := 0 },
   { serial := "V8", modelo := "q8", ataLider := "L", latitude := 0, longitude := 0 },
   { serial := "V9", modelo := "q9", ataLider := "L", latitude := 0, longitude := 0 }]

/-- Every model occurring in `ms` contributes its pair to
`value_counts ms`. -/
theorem count_pair_mem_value_counts {ms : List String} {m : String} (hm : m ∈ ms) :
    (m, ms.count m) ∈ value_counts ms := by
  have h1 : m ∈ dedupKeepFirst ms := mem_dedupKeepFirst.mpr hm
  have h2 : (m, ms.count m) ∈ (dedupKeepFirst ms).map (fun x => (x, ms.count x)) :=
    List.mem_map.mpr ⟨m, h1, rfl⟩
  exact (value_counts_perm ms).mem_iff.mpr h2

/-- C8 (confirmed): the bar series is exactly the descending ranking of
the scoped subset's model counts truncated to its first five entries:
labels and values are the `take 5` prefix of `cont`, the length is
`min 5 (number of distinct models)`, the labels are distinct models of
the subset, the values descend, each label is paired with its count in
the subset, and every model left out of the bars has a count no larger
than any displayed bar value (so the shown five are top-ranked). -/
theorem bars_top5_ranked (df_eqp : List EqpRow) (leaders : List String)
    (sel : Option String) :
    (build_bars_pie df_eqp leaders sel).barLabels =
      ((cont df_eqp leaders sel).take 5).map Prod.fst ∧
    (build_bars_pie df_eqp leaders sel).barValues =
      ((cont df_eqp leaders sel).take 5).map Prod.snd ∧
    (build_bars_pie df_eqp leaders sel).barLabels.length =
      min 5 ((scopedRows df_eqp leaders sel).map (·.modelo)).dedup.length ∧
    (build_bars_pie df_eqp leaders sel).barLabels.Nodup ∧
    List.Pairwise (fun a b : Nat => b ≤ a) (build_bars_pie df_eqp leaders sel).barValues ∧
    (∀ p ∈ (build_bars_pie df_eqp leaders sel).barLabels.zip
        (build_bars_pie df_eqp leaders sel).barValues,
      p.1 ∈ (scopedRows df_eqp leaders sel).map (·.modelo) ∧
      p.2 = ((scopedRows df_eqp leaders sel).map (·.modelo)).count p.1) ∧
    (∀ m ∈ (scopedRows df_eqp leaders sel).map (·.modelo),
      m ∉ (build_bars_pie df_eqp leaders sel).barLabels →
      ∀ v ∈ (build_bars_pie df_eqp leaders sel).barValues,
        ((scopedRows df_eqp leaders sel).map (·.modelo)).count m ≤ v) := by
  have hlab : (build_bars_pie df_eqp leaders sel).barLabels =
      ((cont df_eqp leaders sel).take 5).map Prod.fst := rfl
  have hval : (build_bars_pie df_eqp leaders sel).barValues =
      ((cont df_eqp leaders sel).take 5).map Prod.snd := rfl
  refine ⟨hlab, hval, ?_, ?_, ?_, ?_, ?_⟩
  · rw [hlab, List.length_map, List.length_take]
    simp only [cont, length_value_counts, length_dedupKeepFirst_eq]
  · rw [hlab, List.map_take]
    exact (List.take_sublist 5 _).nodup (nodup_fst_value_counts _)
  · rw [hval]
    refine List.Pairwise.map Prod.snd (fun a b h => h) ?_
    exact List.Pairwise.sublist (List.take_sublist 5 _) (pairwise_value_counts _)
  · intro p hp
    rw [hlab, hval, List.zip_map'] at hp
    have hpe : List.map (fun q : String × Nat => (q.1, q.2))
        ((cont df_eqp leaders sel).take 5) = (cont df_eqp leaders sel).take 5 :=
      List.map_id _
    rw [hpe] at hp
    have hpc : p ∈ cont df_eqp leaders sel := (List.take_sublist 5 _).subset hp
    exact mem_value_counts hpc
  · intro m hm hnot v hv
    have hpair : (m, ((scopedRows df_eqp leaders sel).map (·.modelo)).count m)
        ∈ cont df_eqp leaders sel := count_pair_mem_value_counts hm
    have hnottake : (m, ((scopedRows df_eqp leaders sel).map (·.modelo)).count m)
        ∉ (cont df_eqp leaders sel).take 5 := by
      intro hmem
      apply hnot
      rw [hlab]
      exact List.mem_map.mpr ⟨_, hmem, rfl⟩
    have hdropmem : (m, ((scopedRows df_eqp leaders sel).map (·.modelo)).count m)
        ∈ (cont df_eqp leaders sel).drop 5 := by
      have hsplit := List.take_append_drop 5 (cont df_eqp leaders sel)
      rw [← hsplit] at hpair
      rcases List.mem_append.mp hpair with h | h
      · exact absurd h hnottake
      · exact h
    rw [hval] at hv
    rcases List.mem_map.mp hv with ⟨q, hq, hqv⟩
    have hpw : List.Pairwise (fun a b : String × Nat => b.2 ≤ a.2)
        (cont df_eqp leaders sel) := pairwise_value_counts _
    rw [← List.take_append_drop 5 (cont df_eqp leaders sel)] at hpw
    have hcross := (List.pairwise_append.mp hpw).2.2 q hq
      (m, ((scopedRows df_eqp leaders sel).map (·.modelo)).count m) hdropmem
    rw [← hqv]
    exact hcross

/-- Witness for C8 on the nine-distinct-model fixture: the bar labels
are the first five ranked entries, the omitted model "q9" occurs in the
subset yet not among the bars, and its count is bounded by the displayed
bar value 1, all via `bars_top5_ranked`. -/
theorem bars_top5_ranked_w :
    (build_bars_pie eqpNine [] none).barLabels =
      ((cont eqpNine [] none).take 5).map Prod.fst ∧
    ("q9" ∈ (scopedRows eqpNine [] none).map (·.modelo)) ∧
    ("q9" ∉ (build_bars_pie eqpNine [] none).barLabels) ∧
    ((scopedRows eqpNine [] none).map (·.modelo)).count "q9" ≤ 1 := by
  have h := bars_top5_ranked eqpNine [] none
  refine ⟨h.1, by decide, by decide, ?_⟩
  exact h.2.2.2.2.2.2 "q9" (by decide) (by decide) 1 (by decide)

/-- Nine distinct models, one of them literally named "Outros", which is
ranked first by first-encounter order on equal counts. -/
def eqpOutros : List EqpRow :=
  [{ serial := "T1", modelo := "Outros", ataLider := "L", latitude := 0, longitude := 0 },
   { serial := "T2", modelo := "m1", ataLider := "L", latitude := 0, longitude := 0 },
   { serial := "T3", modelo := "m2", ataLider := "L", latitude := 0, longitude := 0 },
   { serial := "T4", modelo := "m3", ataLider := "L", latitude := 0, longitude := 0 },
   { serial := "T5", modelo := "m4", ataLider := "L", latitude := 0, longitude := 0 },
   { serial := "T6", modelo := "m5", ataLider := "L", latitude := 0, longitude := 0 },
   { serial := "T7", modelo := "m6", ataLider := "L", latitude := 0, longitude := 0 },
   { serial := "T8", modelo := "m7", ataLider := "L", latitude := 0, longitude := 0 },
   { serial := "T9", modelo := "m8", ataLider := "L", latitude := 0, longitude := 0 }]

/-- A second copy of the nine-distinct-models collision fixture. -/
def eqpOutros2 : List EqpRow :=
  [{ serial := "U1", modelo := "Outros", ataLider := "L", latitude := 0, longitude := 0 },
   { serial := "U2", modelo := "n1", ataLider := "L", latitude := 0, longitude := 0 },
   { serial := "U3", modelo := "n2", ataLider := "L", latitude := 0, longitude := 0 },
   { serial := "U4", modelo := "n3", ataLider := "L", latitude := 0, longitude := 0 },
   { serial := "U5", modelo := "n4", ataLider := "L", latitude := 0, longitude := 0 },
   { serial := "U6", modelo := "n5", ataLider := "L", latitude := 0, longitude := 0 },
   { serial := "U7", modelo := "n6", ataLider := "L", latitude := 0, longitude := 0 },
   { serial := "U8", modelo := "n7", ataLider := "L", latitude := 0, longitude := 0 },
   { serial := "U9", modelo := "n8", ataLider := "L", latitude := 0, longitude := 0 }]

/-- C2 counterexample: on a subset with exactly 9 distinct models the
claim promises exactly 9 pie categories, but when a model is literally
named "Outros" and ranked in the top 8, `parts.loc["Outros"] = outros`
(app.py line 171) overwrites that model's count instead of appending a
new category, leaving 8 categories. -/
theorem pie_outros_collision_cex :
    (cont eqpOutros2 [] none).length = 9 ∧
    (build_bars_pie eqpOutros2 [] none).pieLabels.length = 8 := by decide

/-- C2 (amended: provided no model of the scoped subset is literally
named "Outros", the synthetic category's label): the pie series is the
top-8 prefix of the ranked counts with a final "Outros" bucket summing
all remaining counts exactly when more than 8 distinct models occur;
with at most 8 distinct models the pie is the ranked counts themselves
and no "Outros" category appears; with exactly 9 distinct models the pie
has 9 categories and the bucket equals the 9th-ranked model's count; the
ranking prefix is descending by count. -/
theorem pie_other_bucket (df_eqp : List EqpRow) (leaders : List String)
    (sel : Option String)
    (hout : "Outros" ∉ (scopedRows df_eqp leaders sel).map (·.modelo)) :
    (8 < (cont df_eqp leaders sel).length →
      (build_bars_pie df_eqp leaders sel).pieLabels =
        ((cont df_eqp leaders sel).take 8).map Prod.fst ++ ["Outros"] ∧
      (build_bars_pie df_eqp leaders sel).pieValues =
        ((cont df_eqp leaders sel).take 8).map Prod.snd ++
          [(((cont df_eqp leaders sel).drop 8).map Prod.snd).sum]) ∧
    ((cont df_eqp leaders sel).length ≤ 8 →
      (build_bars_pie df_eqp leaders sel).pieLabels =
        (cont df_eqp leaders sel).map Prod.fst ∧
      "Outros" ∉ (build_bars_pie df_eqp leaders sel).pieLabels) ∧
    ((cont df_eqp leaders sel).length = 9 →
      (build_bars_pie df_eqp leaders sel).pieLabels.length = 9 ∧
      (build_bars_pie df_eqp leaders sel).pieValues.getLast? =
        ((cont df_eqp leaders sel)[8]?).map Prod.snd) ∧
    List.Pairwise (fun a b => b.2 ≤ a.2) ((cont df_eqp leaders sel).take 8) := by
  have h8 := not_mem_take_fst_cont hout 8
  have hpl : (build_bars_pie df_eqp leaders sel).pieLabels =
      (if 8 < (cont df_eqp leaders sel).length then
        setLoc ((cont df_eqp leaders sel).take 8) "Outros"
          ((((cont df_eqp leaders sel).drop 8).map Prod.snd).sum)
      else cont df_eqp leaders sel).map Prod.fst := rfl
  have hpv : (build_bars_pie df_eqp leaders sel).pieValues =
      (if 8 < (cont df_eqp leaders sel).length then
        setLoc ((cont df_eqp leaders sel).take 8) "Outros"
          ((((cont df_eqp leaders sel).drop 8).map Prod.snd).sum)
      else cont df_eqp leaders sel).map Prod.snd := rfl
  have hbig : 8 < (cont df_eqp leaders sel).length →
      (build_bars_pie df_eqp leaders sel).pieLabels =
        ((cont df_eqp leaders sel).take 8).map Prod.fst ++ ["Outros"] ∧
      (build_bars_pie df_eqp leaders sel).pieValues =
        ((cont df_eqp leaders sel).take 8).map Prod.snd ++
          [(((cont df_eqp leaders sel).drop 8).map Prod.snd).sum] := by
    intro hgt
    rw [hpl, hpv, if_pos hgt, setLoc_append h8, List.map_append, List.map_append]
    simp
  refine ⟨hbig, ?_, ?_, ?_⟩
  · intro hle
    have hnot : ¬ 8 < (cont df_eqp leaders sel).length := by omega
    rw [hpl, if_neg hnot]
    exact ⟨rfl, not_mem_fst_value_counts hout⟩
  · intro h9
    have hgt : 8 < (cont df_eqp leaders sel).length := by omega
    rcases hbig hgt with ⟨hl, hv⟩
    constructor
    · rw [hl, List.length_append, List.length_map, List.length_take]
      simp [h9]
    · rw [hv, List.getLast?_concat]
      have hlt : 8 < (cont df_eqp leaders sel).length := hgt
      have hdrop : (cont df_eqp leaders sel).drop 8 =
          (cont df_eqp leaders sel)[8] :: (cont df_eqp leaders sel).drop 9 :=
        List.drop_eq_getElem_cons hlt
      have hnil : (cont df_eqp leaders sel).drop 9 = [] :=
        List.drop_eq_nil_of_le (by omega)
      rw [hdrop, hnil, List.getElem?_eq_getElem hlt]
      simp
  · exact List.Pairwise.sublist (List.take_sublist 8 _) (pairwise_value_counts _)

/-- Witness for C2: nine distinct models, none called "Outros", give a
9-category pie via `pie_other_bucket`. -/
theorem pie_other_bucket_w :
    ("Outros" ∉ (scopedRows eqpNine [] none).map (·.modelo)) ∧
    (cont eqpNine [] none).length = 9 ∧
    (build_bars_pie eqpNine [] none).pieLabels.length = 9 := by
  refine ⟨by decide, by decide, ?_⟩
  exact ((pie_other_bucket eqpNine [] none (by decide)).2.2.1 (by decide)).1

/-- C10 counterexample: with the "Outros"-named model in the top 8, the
overwrite at app.py line 171 drops that model's original count, so the
pie values sum to 8 over a 9-row subset. -/
theorem pie_sum_outros_cex :
    ((build_bars_pie eqpOutros [] none).pieValues).sum = 8 ∧
    (scopedRows eqpOutros [] none).length = 9 := by decide

/-- C10 (amended: provided "Outros" is not among the top-8 model names
whenever more than 8 distinct models occur): the pie values, including
the "Outros" bucket when present, sum to the number of rows of the
scoped subset — the bucketing neither loses nor double-counts rows. -/
theorem pie_sum_conserved (df_eqp : List EqpRow) (leaders : List String)
    (sel : Option String)
    (hout : 8 < (cont df_eqp leaders sel).length →
      "Outros" ∉ ((cont df_eqp leaders sel).take 8).map Prod.fst) :
    ((build_bars_pie df_eqp leaders sel).pieValues).sum
      = (scopedRows df_eqp leaders sel).length := by
  have hpv : (build_bars_pie df_eqp leaders sel).pieValues =
      (if 8 < (cont df_eqp leaders sel).length then
        setLoc ((cont df_eqp leaders sel).take 8) "Outros"
          ((((cont df_eqp leaders sel).drop 8).map Prod.snd).sum)
      else cont df_eqp leaders sel).map Prod.snd := rfl
  rw [hpv]
  by_cases h8 : 8 < (cont df_eqp leaders sel).length
  · rw [if_pos h8, setLoc_append (hout h8), List.map_append, List.sum_append]
    simp only [List.map_cons, List.map_nil, List.sum_cons, List.sum_nil, add_zero]
    rw [List.map_take, List.map_drop, List.sum_take_add_sum_drop]
    simp only [cont]
    rw [sum_snd_value_counts]
    exact List.length_map _ _
  · rw [if_neg h8]
    simp only [cont]
    rw [sum_snd_value_counts]
    exact List.length_map _ _

/-- Witness for C10 on the fixture: 3 rows, pie values sum to 3. -/
theorem pie_sum_conserved_w :
    ((build_bars_pie eqpAB [] none).pieValues).sum = (scopedRows eqpAB [] none).length ∧
    (scopedRows eqpAB [] none).length = 3 :=
  ⟨pie_sum_conserved eqpAB [] none (by decide), by decide⟩
